import Mathlib

/-!
Verification of the query-translation and response-normalization code in
`src/app/search_service.py` against its natural-language specification.

Conventions of the shallow embedding: Python `Optional` values become `Option`;
machine floats (rating bounds, scores) are carried as their rendered decimal
strings, since every claim is about where such a rendering is placed, never
about float arithmetic; code that can raise becomes `Except PyError`.
-/

deriving instance DecidableEq for Except

namespace SearchService

/-- Field name `id` from the source configuration block. -/
def FIELD_ID : String := "id"

/-- Field name `title`. -/
def FIELD_TITLE : String := "title"

/-- Field name `year`. -/
def FIELD_YEAR : String := "year"

/-- Field name `genres`. -/
def FIELD_GENRES : String := "genres"

/-- Field name `average_rating`. -/
def FIELD_AVG_RATING : String := "average_rating"

/-- Field name `vote_count`. -/
def FIELD_VOTE_COUNT : String := "vote_count"

/-- Field name `directors`. -/
def FIELD_DIRECTORS : String := "directors"

/-- Field name `actors`. -/
def FIELD_ACTORS : String := "actors"

/-- Field name `description`. -/
def FIELD_DESC : String := "description"

/-- Python truthiness of an optional string: `None` and the empty string are
falsy (`if not q: ...` in the source). -/
def pyTruthy : Option String → Bool
  | none => false
  | some s => !s.isEmpty

/-- Replacement of every occurrence of the character `t` by the character list
`r`, left to right; models Python `str.replace` for a single-character
target. -/
def replace_char (t : Char) (r : List Char) : List Char → List Char
  | [] => []
  | c :: cs => (if c = t then r else [c]) ++ replace_char t r cs

/-- Embedding of `solr_escape_phrase`: `None` maps to the empty string,
otherwise every backslash is doubled first and every double quote is then
prefixed with a backslash, exactly as the two chained `str.replace` calls in
the source do. -/
def solr_escape_phrase (s : Option String) : String :=
  match s with
  | none => ""
  | some s => String.mk (replace_char '"' ['\\', '"'] (replace_char '\\' ['\\', '\\'] s.data))

/-- Word characters as matched by the source tokenizer regular expression
(letters, digits, underscore; ASCII in this model). -/
def isWordChar (c : Char) : Bool := c.isAlphanum || c = '_'

/-- Accumulator loop behind the tokenizer: walks the characters, extending the
current run `acc` (kept reversed) on a word character and emitting it when a
delimiter or the end of input is reached. -/
def tokAux : List Char → List Char → List String
  | [], acc => if acc.isEmpty then [] else [String.mk acc.reverse]
  | c :: cs, acc =>
    if isWordChar c then tokAux cs (c :: acc)
    else if acc.isEmpty then tokAux cs acc
    else String.mk acc.reverse :: tokAux cs []

/-- Embedding of `tokenize_for_fuzzy`: the maximal runs of word characters of
the input, in order, as extracted by `re.findall` over word-character runs in
the source; empty input yields no tokens. -/
def tokenize_for_fuzzy (s : String) : List String := tokAux s.data []

/-- Embedding of `build_q_param`: falsy free text yields the match-all
sentinel, otherwise the escaped text appears once quoted and once bare,
joined by `OR`. -/
def build_q_param (q : Option String) : String :=
  if !pyTruthy q then "*:*"
  else
    let q_esc := solr_escape_phrase q
    "\"" ++ q_esc ++ "\" OR " ++ q_esc

/-- Python truthiness of an optional list (`if genres: ...`): `None` and the
empty list are falsy. -/
def pyTruthyList (l : Option (List String)) : Bool :=
  match l with
  | none => false
  | some l => !l.isEmpty

/-- Escaped, quoted alternatives joined with `OR`, as built for each
multi-valued filter criterion in the source. -/
def quote_join (vs : List String) : String :=
  String.intercalate " OR " (vs.map (fun v => "\"" ++ solr_escape_phrase (some v) ++ "\""))

/-- Rendering of an optional numeric bound inside a range clause: `*` when the
bound is absent, its decimal string when present (Python interpolates the
number itself; this model carries the rendered string). -/
def bound_str (b : Option String) : String := b.getD "*"

/-- Rendering of an optional integer year bound: `*` when absent, the decimal
string of the value when present. -/
def year_str (b : Option Int) : String :=
  match b with
  | none => "*"
  | some y => toString y

/-- Embedding of `build_fq_filters`: conditional accumulation of the genre,
director, actor, rating-range and year-range clauses, in exactly the source's
append order.  Rating bounds are floats in the source and are carried here as
their rendered strings. -/
def build_fq_filters (genres : Option (List String)) (min_rating max_rating : Option String)
    (directors actors : Option (List String)) (year_from year_to : Option Int) : List String :=
  let fqs : List String := []
  let fqs := if pyTruthyList genres then
    fqs ++ [FIELD_GENRES ++ ":(" ++ quote_join (genres.getD []) ++ ")"] else fqs
  let fqs := if pyTruthyList directors then
    fqs ++ [FIELD_DIRECTORS ++ ":(" ++ quote_join (directors.getD []) ++ ")"] else fqs
  let fqs := if pyTruthyList actors then
    fqs ++ [FIELD_ACTORS ++ ":(" ++ quote_join (actors.getD []) ++ ")"] else fqs
  let fqs := if min_rating.isSome || max_rating.isSome then
    fqs ++ [FIELD_AVG_RATING ++ ":[" ++ bound_str min_rating ++ " TO " ++ bound_str max_rating ++ "]"]
    else fqs
  let fqs := if year_from.isSome || year_to.isSome then
    fqs ++ [FIELD_YEAR ++ ":[" ++ year_str year_from ++ " TO " ++ year_str year_to ++ "]"]
    else fqs
  fqs

/-- Per-token cleanup applied in the fuzzy clause: the source removes double
quotes from the regex-escaped token; regex escaping is the identity on
word-character tokens, so only the quote removal remains. -/
def escape_fuzzy_token (t : String) : String :=
  String.mk (t.data.filter (fun c => c != '"'))

/-- Numeric weight of the rating-threshold boost query, appearing as the `^5`
suffix of the built string. -/
def rating_boost_weight : ℚ := 5

/-- Numeric weight of the title fuzzy boost query, appearing as the `^1.5`
suffix of the built string. -/
def fuzzy_boost_weight : ℚ := 1.5

/-- Embedding of the boost-query assembly in `search` (the `bq` parameter):
the rating-threshold boost is always present; when the fuzzy flag is set, the
free text is truthy and tokenization yields at least one token, a title-field
fuzzy boost over the tokens is appended after it. -/
def build_bq (q : Option String) (fuzzy : Bool) (fuzzy_distance : Nat) : List String :=
  let rating_bq := FIELD_AVG_RATING ++ ":[8 TO *]^5"
  let fuzzy_bq : Option String :=
    if fuzzy && pyTruthy q then
      let tokens := tokenize_for_fuzzy (q.getD "")
      if tokens.isEmpty then none
      else
        let fuzzy_terms := String.intercalate " "
          (tokens.map (fun t => escape_fuzzy_token t ++ "~" ++ toString fuzzy_distance))
        some (FIELD_TITLE ++ ":(" ++ fuzzy_terms ++ ")^1.5")
    else none
  match fuzzy_bq with
  | some f => [rating_bq, f]
  | none => [rating_bq]

/-- Value appearing in a facet-counts array; the engine alternates labels and
counts in one flat list. -/
inductive JCell where
  | s (v : String)
  | n (v : Int)
deriving DecidableEq, Repr

/-- Error conditions the handler code can surface, one constructor per raising
site: `HTTPException`, the pydantic validation failure on a required field,
the iterator exhaustion inside the facet pairing, and an uncaught transport
exception from the HTTP client. -/
inductive PyError where
  | httpException (status : Nat) (detail : String)
  | validationError
  | stopIteration
  | requestsError (msg : String)
deriving DecidableEq, Repr

/-- Specification taxonomy: the conditions the spec files under `MappingError`
(engine response violating the expected contract) are the pydantic validation
failure on the identifier and the facet-pairing exhaustion. -/
def isMappingError : PyError → Bool
  | PyError.validationError => true
  | PyError.stopIteration => true
  | _ => false

/-- ServiceUnavailable condition as the source raises it: HTTP 503 with the
transport error message. -/
def serviceUnavailable (msg : String) : PyError :=
  PyError.httpException 503 ("Error connecting to Solr: " ++ msg)

/-- UpstreamError condition as the source raises it: the engine status code
with the engine body in the detail. -/
def upstreamError (status : Nat) (body : String) : PyError :=
  PyError.httpException status ("Solr error: " ++ body)

/-- NotFound condition as the source raises it for a zero-document lookup. -/
def notFound (film_id : String) : PyError :=
  PyError.httpException 404 ("Film " ++ film_id ++ " not found")

/-- Raw engine document: every field optional, exactly the projection the
source requests; floats carried as rendered strings. -/
structure RawDoc where
  id : Option String := none
  title : Option String := none
  year : Option Int := none
  genres : Option (List String) := none
  average_rating : Option String := none
  vote_count : Option Int := none
  directors : Option (List String) := none
  actors : Option (List String) := none
  description : Option String := none
  score : Option String := none
deriving DecidableEq, Repr

/-- Normalized output entity; the identifier is required and non-optional, all
other fields pass through as optionals. -/
structure Film where
  id : String
  title : Option String := none
  year : Option Int := none
  genres : Option (List String) := none
  average_rating : Option String := none
  vote_count : Option Int := none
  directors : Option (List String) := none
  actors : Option (List String) := none
  description : Option String := none
  score : Option String := none
deriving DecidableEq, Repr

/-- Construction of a `Film` from a raw document, as the source's
`Film(id=d.get(FIELD_ID), ...)` call: pydantic declares `id: str` required, so
a missing identifier (a `None` argument) raises a validation error instead of
producing a film. -/
def film_of_doc (d : RawDoc) : Except PyError Film :=
  match d.id with
  | none => Except.error PyError.validationError
  | some i =>
    Except.ok { id := i, title := d.title, year := d.year, genres := d.genres,
                average_rating := d.average_rating, vote_count := d.vote_count,
                directors := d.directors, actors := d.actors,
                description := d.description, score := d.score }

/-- Pairing loop behind `facet_list_to_pairs`: the comprehension draws two
elements per step from one shared iterator, so an odd-length list exhausts the
iterator mid-step and raises. -/
def pair_adjacent {α : Type} : List α → Except PyError (List (α × α))
  | [] => Except.ok []
  | [_] => Except.error PyError.stopIteration
  | v :: c :: rest => (pair_adjacent rest).map (fun ps => (v, c) :: ps)

/-- Embedding of `facet_list_to_pairs`: a falsy argument (`None` or the empty
list) yields the empty pair list, otherwise adjacent elements are paired. -/
def facet_list_to_pairs {α : Type} (arr : Option (List α)) : Except PyError (List (α × α)) :=
  match arr with
  | none => Except.ok []
  | some l => if l.isEmpty then Except.ok [] else pair_adjacent l

/-- Raw engine payload as the normalization code reads it: the reported total
(absent treated as zero at the read site), the document array, and the
facet-counts section as the key-value pairs the engine returned, a value being
a possibly-null flat array. -/
structure SolrData where
  numFound : Option Nat := none
  docs : List RawDoc := []
  facet_fields : List (String × Option (List JCell)) := []
deriving DecidableEq, Repr

/-- Normalized result shape returned by the search endpoint. -/
structure SearchResult where
  total : Nat
  page : Nat
  per_page : Nat
  total_pages : Nat
  results : List Film
  facets : Option (List (String × List (JCell × JCell)))
deriving DecidableEq, Repr

/-- Facet section of the output: one entry per key-value pair the engine
returned, in order, each value run through the pairing; models the source's
dict comprehension over `facets.items()`, whose first raising entry aborts the
whole comprehension. -/
def facet_fields_to_pairs : List (String × Option (List JCell)) →
    Except PyError (List (String × List (JCell × JCell)))
  | [] => Except.ok []
  | kv :: tl =>
    match facet_list_to_pairs kv.2 with
    | Except.error e => Except.error e
    | Except.ok ps =>
      match facet_fields_to_pairs tl with
      | Except.error e => Except.error e
      | Except.ok rest => Except.ok ((kv.1, ps) :: rest)

/-- Document loop of the normalization: each raw document becomes a film, in
order, and the first raising construction aborts the loop. -/
def films_of_docs : List RawDoc → Except PyError (List Film)
  | [] => Except.ok []
  | d :: tl =>
    match film_of_doc d with
    | Except.error e => Except.error e
    | Except.ok f =>
      match films_of_docs tl with
      | Except.error e => Except.error e
      | Except.ok rest => Except.ok (f :: rest)

/-- Embedding of the normalization tail of `search` (document mapping, facet
flattening, paging arithmetic).  `math.ceil` of the nonnegative quotient is
the exact ceiling division, modelled on naturals. -/
def normalize (facet : Bool) (page per_page : Nat) (data : SolrData) :
    Except PyError SearchResult :=
  let num_found := data.numFound.getD 0
  match films_of_docs data.docs with
  | Except.error e => Except.error e
  | Except.ok films =>
    match (if facet then (facet_fields_to_pairs data.facet_fields).map some
           else Except.ok none) with
    | Except.error e => Except.error e
    | Except.ok facets_out =>
      let total_pages := if per_page ≠ 0 then (num_found + per_page - 1) / per_page else 0
      Except.ok { total := num_found, page := page, per_page := per_page,
                  total_pages := total_pages, results := films, facets := facets_out }

/-- Outcome of the HTTP client call: either the transport raised, or a
response with a status, a body text and (when consumed) a parsed payload came
back. -/
structure EngineResponse where
  status : Nat
  text : String
  json : SolrData
deriving DecidableEq, Repr

/-- Transport-level outcome of invoking the engine. -/
inductive Transport where
  | fail (msg : String)
  | ok (r : EngineResponse)
deriving DecidableEq, Repr

/-- Embedding of the call-and-normalize tail of the `search` endpoint: a
transport exception is caught and re-raised as HTTP 503, a non-200 status is
re-raised with the engine status and body, and a success is normalized. -/
def search_handler (facet : Bool) (page per_page : Nat) (engine : Transport) :
    Except PyError SearchResult :=
  match engine with
  | Transport.fail m => Except.error (PyError.httpException 503 ("Error connecting to Solr: " ++ m))
  | Transport.ok r =>
    if r.status ≠ 200 then Except.error (PyError.httpException r.status ("Solr error: " ++ r.text))
    else normalize facet page per_page r.json

/-- Identifier-equality query built by the lookup endpoint. -/
def get_film_q (film_id : String) : String :=
  FIELD_ID ++ ":\"" ++ solr_escape_phrase (some film_id) ++ "\""

/-- Embedding of the `get_film` endpoint: the transport call is NOT wrapped in
a try block in the source, so a transport exception propagates untranslated; a
non-200 status is re-raised with the engine status and body; zero documents
raise HTTP 404; otherwise the first document is mapped to a film. -/
def get_film_handler (film_id : String) (engine : Transport) : Except PyError Film :=
  match engine with
  | Transport.fail m => Except.error (PyError.requestsError m)
  | Transport.ok r =>
    if r.status ≠ 200 then Except.error (PyError.httpException r.status ("Solr error: " ++ r.text))
    else
      match r.json.docs with
      | [] => Except.error (PyError.httpException 404 ("Film " ++ film_id ++ " not found"))
      | d :: _ => film_of_doc d

/-- Recognizer for a range clause on the given field: the clause text starts
with the field name followed by the opening of a range bracket. -/
def range_clause_on (fld : String) (s : String) : Bool :=
  (fld ++ ":[").data.isPrefixOf s.data

/-- Character-wise specification of the escaper, for comparison with the
source's chained replaces: a backslash doubles, a double quote gains a leading
backslash, every other character is untouched. -/
def escape_char_spec (c : Char) : List Char :=
  if c = '\\' then ['\\', '\\'] else if c = '"' then ['\\', '"'] else [c]

/-- Scanner deciding that a character list can sit inside a quoted literal:
every backslash starts a two-character escape of a backslash or a quote, and
no bare double quote occurs. -/
def well_escaped : List Char → Bool
  | [] => true
  | c :: cs =>
    if c = '\\' then
      match cs with
      | [] => false
      | d :: ds => (d == '\\' || d == '"') && well_escaped ds
    else if c = '"' then false
    else well_escaped cs

/-!  Helper lemmas shared by the claim theorems. -/

theorem isPrefixOf_append_self (l m : List Char) : l.isPrefixOf (l ++ m) = true := by
  rw [ List.isPrefixOf_iff_prefix]
  exact ⟨m, rfl⟩

theorem isPrefixOf_cons_ne (a b : Char) (as bs : List Char) (h : ¬a = b) :
    (a :: as).isPrefixOf (b :: bs) = false := by
  show (a == b && as.isPrefixOf bs) = false
  have hb : (a == b) = false := by simp [h]
  rw [hb, Bool.false_and]

theorem not_prefix_step (a : Char) (l₁ l₂ : List Char) (h : l₁.isPrefixOf l₂ = false) :
    (a :: l₁).isPrefixOf (a :: l₂) = false := by
  show (a == a && l₁.isPrefixOf l₂) = false
  rw [h]
  simp

/-- Decomposition of the filter builder into its five conditional parts, in
the source's emission order. -/
theorem build_fq_filters_eq (g : Option (List String)) (mn mx : Option String)
    (d a : Option (List String)) (yf yt : Option Int) :
    build_fq_filters g mn mx d a yf yt =
      (if pyTruthyList g then [FIELD_GENRES ++ ":(" ++ quote_join (g.getD []) ++ ")"] else [])
      ++ (if pyTruthyList d then [FIELD_DIRECTORS ++ ":(" ++ quote_join (d.getD []) ++ ")"] else [])
      ++ (if pyTruthyList a then [FIELD_ACTORS ++ ":(" ++ quote_join (a.getD []) ++ ")"] else [])
      ++ (if mn.isSome || mx.isSome then
            [FIELD_AVG_RATING ++ ":[" ++ bound_str mn ++ " TO " ++ bound_str mx ++ "]"] else [])
      ++ (if yf.isSome || yt.isSome then
            [FIELD_YEAR ++ ":[" ++ year_str yf ++ " TO " ++ year_str yt ++ "]"] else []) := by
  unfold build_fq_filters
  cases hg : pyTruthyList g <;> cases hd : pyTruthyList d <;> cases ha : pyTruthyList a <;>
    cases hr : mn.isSome || mx.isSome <;> cases hy : yf.isSome || yt.isSome <;>
      simp [hg, hd, ha, hr, hy]

theorem range_rating_not_genre (x : String) :
    range_clause_on FIELD_AVG_RATING (FIELD_GENRES ++ ":(" ++ x ++ ")") = false := by
  unfold range_clause_on FIELD_AVG_RATING FIELD_GENRES
  simp only [String.data_append, List.cons_append, List.nil_append]
  exact isPrefixOf_cons_ne _ _ _ _ (by decide)

theorem range_rating_not_director (x : String) :
    range_clause_on FIELD_AVG_RATING (FIELD_DIRECTORS ++ ":(" ++ x ++ ")") = false := by
  unfold range_clause_on FIELD_AVG_RATING FIELD_DIRECTORS
  simp only [String.data_append, List.cons_append, List.nil_append]
  exact isPrefixOf_cons_ne _ _ _ _ (by decide)

theorem range_rating_not_actor (x : String) :
    range_clause_on FIELD_AVG_RATING (FIELD_ACTORS ++ ":(" ++ x ++ ")") = false := by
  unfold range_clause_on FIELD_AVG_RATING FIELD_ACTORS
  simp only [String.data_append, List.cons_append, List.nil_append]
  exact not_prefix_step _ _ _ (isPrefixOf_cons_ne _ _ _ _ (by decide))

theorem range_rating_not_year (x y : String) :
    range_clause_on FIELD_AVG_RATING (FIELD_YEAR ++ ":[" ++ x ++ " TO " ++ y ++ "]") = false := by
  unfold range_clause_on FIELD_AVG_RATING FIELD_YEAR
  simp only [String.data_append, List.cons_append, List.nil_append]
  exact isPrefixOf_cons_ne _ _ _ _ (by decide)

theorem range_year_not_genre (x : String) :
    range_clause_on FIELD_YEAR (FIELD_GENRES ++ ":(" ++ x ++ ")") = false := by
  unfold range_clause_on FIELD_YEAR FIELD_GENRES
  simp only [String.data_append, List.cons_append, List.nil_append]
  exact isPrefixOf_cons_ne _ _ _ _ (by decide)

theorem range_year_not_director (x : String) :
    range_clause_on FIELD_YEAR (FIELD_DIRECTORS ++ ":(" ++ x ++ ")") = false := by
  unfold range_clause_on FIELD_YEAR FIELD_DIRECTORS
  simp only [String.data_append, List.cons_append, List.nil_append]
  exact isPrefixOf_cons_ne _ _ _ _ (by decide)

theorem range_year_not_actor (x : String) :
    range_clause_on FIELD_YEAR (FIELD_ACTORS ++ ":(" ++ x ++ ")") = false := by
  unfold range_clause_on FIELD_YEAR FIELD_ACTORS
  simp only [String.data_append, List.cons_append, List.nil_append]
  exact isPrefixOf_cons_ne _ _ _ _ (by decide)

theorem range_year_not_rating (x y : String) :
    range_clause_on FIELD_YEAR (FIELD_AVG_RATING ++ ":[" ++ x ++ " TO " ++ y ++ "]") = false := by
  unfold range_clause_on FIELD_YEAR FIELD_AVG_RATING
  simp only [String.data_append, List.cons_append, List.nil_append]
  exact isPrefixOf_cons_ne _ _ _ _ (by decide)

theorem range_clause_on_self (fld b1 b2 : String) :
    range_clause_on fld (fld ++ ":[" ++ b1 ++ " TO " ++ b2 ++ "]") = true := by
  unfold range_clause_on
  simp only [String.data_append, List.append_assoc]
  rw [← List.append_assoc]
  exact isPrefixOf_append_self _ _

theorem filter_if_single (p : String → Bool) (c : Bool) (s : String) (hp : p s = false) :
    (if c = true then [s] else []).filter p = [] := by
  cases c <;> simp [hp]

theorem filter_if_single_pos (p : String → Bool) (c : Bool) (s : String) (hp : p s = true) :
    (if c = true then [s] else []).filter p = if c = true then [s] else [] := by
  cases c <;> simp [hp]

/-- Claim C5: the primary query string is the match-all sentinel when free
text is absent (or empty, hence falsy), and otherwise is the escaped text once
as a quoted phrase and once bare, joined by OR. -/
theorem claim_C5_primary_query :
    build_q_param none = "*:*"
    ∧ ∀ s : String, build_q_param (some s) =
        if s.isEmpty then "*:*"
        else "\"" ++ solr_escape_phrase (some s) ++ "\" OR " ++ solr_escape_phrase (some s) := by
  refine ⟨rfl, fun s => ?_⟩
  unfold build_q_param pyTruthy
  cases hs : s.isEmpty <;> simp [hs]

/-- Claim C6: the filter builder emits its clauses in the fixed order genre,
director, actor, rating range, year range, emitting nothing for an absent
criterion, and emits the empty clause list when every criterion is absent. -/
theorem claim_C6_filter_clause_order :
    (∀ (g : Option (List String)) (mn mx : Option String) (d a : Option (List String))
        (yf yt : Option Int),
      build_fq_filters g mn mx d a yf yt =
        (if pyTruthyList g then [FIELD_GENRES ++ ":(" ++ quote_join (g.getD []) ++ ")"] else [])
        ++ (if pyTruthyList d then [FIELD_DIRECTORS ++ ":(" ++ quote_join (d.getD []) ++ ")"] else [])
        ++ (if pyTruthyList a then [FIELD_ACTORS ++ ":(" ++ quote_join (a.getD []) ++ ")"] else [])
        ++ (if mn.isSome || mx.isSome then
              [FIELD_AVG_RATING ++ ":[" ++ bound_str mn ++ " TO " ++ bound_str mx ++ "]"] else [])
        ++ (if yf.isSome || yt.isSome then
              [FIELD_YEAR ++ ":[" ++ year_str yf ++ " TO " ++ year_str yt ++ "]"] else []))
    ∧ build_fq_filters none none none none none none none = [] :=
  ⟨build_fq_filters_eq, rfl⟩

/-- Claim C7: with at least one rating bound present, the emitted clause list
contains exactly one range clause on the rating field, reading a star on the
absent side and the rendered value on the present side; likewise for the year
pair on the year field. -/
theorem claim_C7_range_clause_bounds (g : Option (List String)) (mn mx : Option String)
    (d a : Option (List String)) (yf yt : Option Int) :
    ((mn.isSome || mx.isSome) = true →
      (build_fq_filters g mn mx d a yf yt).filter (range_clause_on FIELD_AVG_RATING)
        = [FIELD_AVG_RATING ++ ":[" ++ bound_str mn ++ " TO " ++ bound_str mx ++ "]"])
    ∧ ((yf.isSome || yt.isSome) = true →
      (build_fq_filters g mn mx d a yf yt).filter (range_clause_on FIELD_YEAR)
        = [FIELD_YEAR ++ ":[" ++ year_str yf ++ " TO " ++ year_str yt ++ "]"]) := by
  constructor
  · intro h
    rw [build_fq_filters_eq]
    rw [List.filter_append, List.filter_append, List.filter_append, List.filter_append]
    rw [filter_if_single _ _ _ (range_rating_not_genre _),
        filter_if_single _ _ _ (range_rating_not_director _),
        filter_if_single _ _ _ (range_rating_not_actor _),
        filter_if_single_pos _ _ _ (range_clause_on_self _ _ _),
        filter_if_single _ _ _ (range_rating_not_year _ _)]
    simp [h]
  · intro h
    rw [build_fq_filters_eq]
    rw [List.filter_append, List.filter_append, List.filter_append, List.filter_append]
    rw [filter_if_single _ _ _ (range_year_not_genre _),
        filter_if_single _ _ _ (range_year_not_director _),
        filter_if_single _ _ _ (range_year_not_actor _),
        filter_if_single _ _ _ (range_year_not_rating _ _),
        filter_if_single_pos _ _ _ (range_clause_on_self _ _ _)]
    simp [h]

/-- Witness for claim C7 at a concrete criteria set: a present lower rating
bound and a present upper year bound. -/
theorem claim_C7_range_clause_bounds_witness :
    ((some "7.5" : Option String).isSome || (none : Option String).isSome) = true
    ∧ (build_fq_filters (some ["Action"]) (some "7.5") none none none none (some 1999)).filter
        (range_clause_on FIELD_AVG_RATING) = ["average_rating:[7.5 TO *]"]
    ∧ (build_fq_filters (some ["Action"]) (some "7.5") none none none none (some 1999)).filter
        (range_clause_on FIELD_YEAR) = ["year:[* TO 1999]"] := by
  have h := claim_C7_range_clause_bounds (some ["Action"]) (some "7.5") none none none
    none (some 1999)
  refine ⟨by decide, ?_, ?_⟩
  · rw [h.1 (by decide)]; decide
  · rw [h.2 (by decide)]; decide

/-- Claim C10: a present but empty free-text query is treated exactly as
absent free text: the primary query is the match-all sentinel and the
boost-query list holds only the rating boost, whatever the fuzzy flag and
distance are. -/
theorem claim_C10_empty_query_as_absent :
    build_q_param (some "") = "*:*"
    ∧ build_q_param (some "") = build_q_param none
    ∧ ∀ (fz : Bool) (dist : Nat),
        build_bq (some "") fz dist = [FIELD_AVG_RATING ++ ":[8 TO *]^5"]
        ∧ build_bq (some "") fz dist = build_bq none fz dist := by
  refine ⟨by decide, by decide, fun fz dist => ?_⟩
  unfold build_bq
  cases fz <;> simp [pyTruthy, show ("" : String).isEmpty = true from rfl]



theorem replace_char_append (t : Char) (r : List Char) (l₁ l₂ : List Char) :
    replace_char t r (l₁ ++ l₂) = replace_char t r l₁ ++ replace_char t r l₂ := by
  induction l₁ with
  | nil => rfl
  | cons c cs ih => simp [replace_char, ih, List.append_assoc]

theorem escape_comp_eq_bind (l : List Char) :
    replace_char '"' ['\\', '"'] (replace_char '\\' ['\\', '\\'] l) = l.flatMap escape_char_spec := by
  induction l with
  | nil => rfl
  | cons c cs ih =>
    have hhead : replace_char '"' ['\\', '"'] (if c = '\\' then ['\\', '\\'] else [c])
        = escape_char_spec c := by
      by_cases h1 : c = '\\'
      · subst h1; decide
      · by_cases h2 : c = '"'
        · subst h2; decide
        · simp [h1, h2, escape_char_spec, replace_char]
    rw [show replace_char '\\' ['\\', '\\'] (c :: cs)
          = (if c = '\\' then ['\\', '\\'] else [c]) ++ replace_char '\\' ['\\', '\\'] cs from rfl,
        replace_char_append, ih, hhead, List.flatMap_cons]

theorem well_escaped_cons_other (c : Char) (cs : List Char) (h1 : ¬c = '\\') (h2 : ¬c = '"') :
    well_escaped (c :: cs) = well_escaped cs := by
  rw [well_escaped.eq_def]
  simp [h1, h2]

theorem well_escaped_bind (l : List Char) : well_escaped (l.flatMap escape_char_spec) = true := by
  induction l with
  | nil => rfl
  | cons c cs ih =>
    rw [List.flatMap_cons]
    by_cases h1 : c = '\\'
    · subst h1
      show (('\\' == '\\' || '\\' == '"') && well_escaped (cs.flatMap escape_char_spec)) = true
      simp [ih]
    · by_cases h2 : c = '"'
      · subst h2
        show (('"' == '\\' || '"' == '"') && well_escaped (cs.flatMap escape_char_spec)) = true
        simp [ih]
      · have hspec : escape_char_spec c = [c] := by simp [escape_char_spec, h1, h2]
        rw [hspec]
        show well_escaped (c :: cs.flatMap escape_char_spec) = true
        rw [well_escaped_cons_other c _ h1 h2]
        exact ih

/-- Claim C9: the escaper maps an absent input to the empty string, acts
character-wise (backslash doubles, quote gains a leading backslash, everything
else unchanged, so quote-introduced backslashes are never re-escaped), and its
output always re-embeds safely in a quoted literal. -/
theorem claim_C9_escaper :
    solr_escape_phrase none = ""
    ∧ (∀ s : String, (solr_escape_phrase (some s)).data = s.data.flatMap escape_char_spec)
    ∧ (∀ s : String, well_escaped (solr_escape_phrase (some s)).data = true) := by
  have h2 : ∀ s : String, (solr_escape_phrase (some s)).data = s.data.flatMap escape_char_spec := by
    intro s
    show replace_char '"' ['\\', '"'] (replace_char '\\' ['\\', '\\'] s.data) = _
    exact escape_comp_eq_bind s.data
  exact ⟨rfl, h2, fun s => by rw [h2 s]; exact well_escaped_bind s.data⟩


theorem tokAux_tokens_word (l : List Char) : ∀ (acc : List Char),
    (∀ c ∈ acc, isWordChar c = true) →
    ∀ t ∈ tokAux l acc, ∀ c ∈ t.data, isWordChar c = true := by
  induction l with
  | nil =>
    intro acc hacc t ht c hc
    unfold tokAux at ht
    by_cases he : acc.isEmpty = true
    · rw [if_pos he] at ht
      exact absurd ht (by simp)
    · rw [if_neg he] at ht
      have ht' : t = String.mk acc.reverse := by simpa using ht
      subst ht'
      exact hacc c (by simpa using hc)
  | cons x xs ih =>
    intro acc hacc t ht c hc
    unfold tokAux at ht
    by_cases hw : isWordChar x = true
    · rw [if_pos hw] at ht
      refine ih (x :: acc) ?_ t ht c hc
      intro c' hc'
      rcases List.mem_cons.mp hc' with h | h
      · rw [h]; exact hw
      · exact hacc c' h
    · rw [if_neg hw] at ht
      by_cases he : acc.isEmpty = true
      · rw [if_pos he] at ht
        exact ih acc hacc t ht c hc
      · rw [if_neg he] at ht
        rcases List.mem_cons.mp ht with h | h
        · rw [h] at hc
          exact hacc c (by simpa using hc)
        · exact ih [] (by intro c' hc'; exact absurd hc' (by simp)) t h c hc

theorem tokenize_tokens_word (s : String) :
    ∀ t ∈ tokenize_for_fuzzy s, ∀ c ∈ t.data, isWordChar c = true :=
  tokAux_tokens_word s.data [] (by intro c hc; exact absurd hc (by simp))

theorem escape_fuzzy_token_id (t : String) (h : ∀ c ∈ t.data, isWordChar c = true) :
    escape_fuzzy_token t = t := by
  unfold escape_fuzzy_token
  have hf : t.data.filter (fun c => c != '"') = t.data := by
    rw [List.filter_eq_self]
    intro c hc
    have hw := h c hc
    simp only [bne_iff_ne, ne_eq]
    intro hcq
    rw [hcq] at hw
    exact absurd hw (by decide)
  rw [hf]

/-- Claim C1: with the fuzzy flag on, truthy free text and at least one token,
the boost-query list is exactly the rating-threshold boost followed by the
title fuzzy boost over the tokens, each token suffixed with a tilde and the
requested distance; when the fuzzy condition fails the list is only the rating
boost; and the fuzzy weight is strictly below the rating weight. -/
theorem claim_C1_fuzzy_boost_list :
    (∀ (s : String) (dist : Nat), pyTruthy (some s) = true → tokenize_for_fuzzy s ≠ [] →
      build_bq (some s) true dist =
        [FIELD_AVG_RATING ++ ":[8 TO *]^5",
         FIELD_TITLE ++ ":(" ++ String.intercalate " "
           ((tokenize_for_fuzzy s).map (fun t => t ++ "~" ++ toString dist)) ++ ")^1.5"])
    ∧ (∀ (q : Option String) (fz : Bool) (dist : Nat),
        ¬(fz = true ∧ pyTruthy q = true ∧ tokenize_for_fuzzy (q.getD "") ≠ []) →
        build_bq q fz dist = [FIELD_AVG_RATING ++ ":[8 TO *]^5"])
    ∧ fuzzy_boost_weight < rating_boost_weight := by
  refine ⟨?_, ?_, ?_⟩
  · intro s dist ht hne
    unfold build_bq
    have hmap : (tokenize_for_fuzzy s).map (fun t => escape_fuzzy_token t ++ "~" ++ toString dist)
        = (tokenize_for_fuzzy s).map (fun t => t ++ "~" ++ toString dist) := by
      refine List.map_congr_left ?_
      intro t htok
      rw [escape_fuzzy_token_id t (tokenize_tokens_word s t htok)]
    have hie : (tokenize_for_fuzzy s).isEmpty = false := by
      cases hx : tokenize_for_fuzzy s with
      | nil => exact absurd hx hne
      | cons a l => rfl
    simp [ht, hie, hmap]
  · intro q fz dist hn
    unfold build_bq
    by_cases h1 : fz = true
    · rw [h1]
      by_cases h2 : pyTruthy q = true
      · have h3 : tokenize_for_fuzzy (q.getD "") = [] := by
          by_contra hc
          exact hn ⟨h1, h2, hc⟩
        simp [h2, h3]
      · have h2' : pyTruthy q = false := by
          cases hq : pyTruthy q
          · rfl
          · exact absurd hq h2
        simp [h2']
    · have h1' : fz = false := by
        cases hf : fz
        · rfl
        · exact absurd hf h1
      rw [h1']
      simp
  · rw [fuzzy_boost_weight, rating_boost_weight]
    norm_num

/-- Witness for claim C1 at the specification's example: fuzzy on, distance 2,
query "dark knght". -/
theorem claim_C1_fuzzy_boost_list_witness :
    pyTruthy (some "dark knght") = true
    ∧ tokenize_for_fuzzy "dark knght" ≠ []
    ∧ build_bq (some "dark knght") true 2 =
        ["average_rating:[8 TO *]^5", "title:(dark~2 knght~2)^1.5"] := by
  refine ⟨by decide, by decide, ?_⟩
  have h := claim_C1_fuzzy_boost_list.1 "dark knght" 2 (by decide) (by decide)
  rw [h]
  decide


theorem pair_adjacent_odd {α : Type} : ∀ (l : List α), l.length % 2 = 1 →
    pair_adjacent l = Except.error PyError.stopIteration
  | [], h => by simp at h
  | [_], _ => rfl
  | v :: c :: rest, h => by
    have h' : rest.length % 2 = 1 := by
      simp only [List.length_cons] at h
      omega
    rw [show pair_adjacent (v :: c :: rest)
          = (pair_adjacent rest).map (fun ps => (v, c) :: ps) from rfl,
        pair_adjacent_odd rest h']
    rfl

theorem pair_adjacent_flatten {α : Type} (l : List (α × α)) :
    pair_adjacent (l.flatMap fun p => [p.1, p.2]) = Except.ok l := by
  induction l with
  | nil => rfl
  | cons p ps ih =>
    rw [show ((p :: ps).flatMap fun p => [p.1, p.2])
          = p.1 :: p.2 :: (ps.flatMap fun p => [p.1, p.2]) from rfl]
    rw [show pair_adjacent (p.1 :: p.2 :: (ps.flatMap fun p => [p.1, p.2]))
          = (pair_adjacent (ps.flatMap fun p => [p.1, p.2])).map (fun x => (p.1, p.2) :: x)
        from rfl]
    rw [ih]
    rfl

/-- Claim C3: a raw document with no identifier raises instead of yielding a
film, a successfully built film carries exactly the document's identifier
(never null), an odd-length facet array raises instead of yielding pairs, and
both failures fall under the spec's MappingError taxonomy. -/
theorem claim_C3_mapping_error :
    (∀ d : RawDoc, d.id = none → film_of_doc d = Except.error PyError.validationError)
    ∧ (∀ (d : RawDoc) (f : Film), film_of_doc d = Except.ok f → d.id = some f.id)
    ∧ (∀ arr : List JCell, arr.length % 2 = 1 →
        facet_list_to_pairs (some arr) = Except.error PyError.stopIteration)
    ∧ isMappingError PyError.validationError = true
    ∧ isMappingError PyError.stopIteration = true := by
  refine ⟨?_, ?_, ?_, rfl, rfl⟩
  · intro d hid
    unfold film_of_doc
    rw [hid]
  · intro d f hok
    unfold film_of_doc at hok
    cases hid : d.id with
    | none =>
      rw [hid] at hok
      exact absurd hok (by simp)
    | some i =>
      rw [hid] at hok
      injection hok with hrec
      rw [← hrec]
  · intro arr h
    have hne : arr.isEmpty = false := by
      cases arr with
      | nil => simp at h
      | cons a l => rfl
    show (if arr.isEmpty = true then Except.ok [] else pair_adjacent arr)
        = Except.error PyError.stopIteration
    rw [if_neg (by rw [hne]; exact Bool.false_ne_true)]
    exact pair_adjacent_odd arr h

/-- Witness for claim C3: a document with every field absent, and the
odd-length facet array with a single cell. -/
theorem claim_C3_mapping_error_witness :
    ({ id := none } : RawDoc).id = none
    ∧ film_of_doc { id := none } = Except.error PyError.validationError
    ∧ ([JCell.s "Action"] : List JCell).length % 2 = 1
    ∧ facet_list_to_pairs (some [JCell.s "Action"]) = Except.error PyError.stopIteration :=
  ⟨rfl, claim_C3_mapping_error.1 { id := none } rfl, by decide,
   claim_C3_mapping_error.2.2.1 [JCell.s "Action"] (by decide)⟩


theorem facet_fields_keys (ff : List (String × Option (List JCell)))
    (out : List (String × List (JCell × JCell)))
    (h : facet_fields_to_pairs ff = Except.ok out) :
    out.map Prod.fst = ff.map Prod.fst := by
  induction ff generalizing out with
  | nil =>
    unfold facet_fields_to_pairs at h
    cases h
    rfl
  | cons kv tl ih =>
    unfold facet_fields_to_pairs at h
    cases hkv : facet_list_to_pairs kv.2 with
    | error e =>
      rw [hkv] at h
      exact absurd h (by simp)
    | ok ps =>
      rw [hkv] at h
      cases htl : facet_fields_to_pairs tl with
      | error e =>
        rw [htl] at h
        exact absurd h (by simp)
      | ok rest =>
        rw [htl] at h
        injection h with hrec
        rw [← hrec]
        simp only [List.map_cons]
        rw [ih rest htl]

theorem normalize_ok_inv (facet : Bool) (page pp : Nat) (data : SolrData) (res : SearchResult)
    (h : normalize facet page pp data = Except.ok res) :
    res.total = data.numFound.getD 0
    ∧ res.page = page ∧ res.per_page = pp
    ∧ res.total_pages = (if pp ≠ 0 then (data.numFound.getD 0 + pp - 1) / pp else 0)
    ∧ (facet = true →
        ∃ m, res.facets = some m ∧ m.map Prod.fst = data.facet_fields.map Prod.fst) := by
  unfold normalize at h
  cases hf : films_of_docs data.docs with
  | error e =>
    rw [hf] at h
    exact absurd h (by simp)
  | ok films =>
    rw [hf] at h
    cases facet with
    | false =>
      rw [if_neg (by exact Bool.false_ne_true)] at h
      injection h with hrec
      rw [← hrec]
      exact ⟨rfl, rfl, rfl, rfl, fun hc => absurd hc Bool.false_ne_true⟩
    | true =>
      rw [if_pos rfl] at h
      cases hff : facet_fields_to_pairs data.facet_fields with
      | error e =>
        rw [hff] at h
        exact absurd h (by simp [Except.map])
      | ok m =>
        rw [hff] at h
        rw [show (Except.ok m).map (some : List (String × List (JCell × JCell)) → _)
              = Except.ok (some m) from rfl] at h
        injection h with hrec
        rw [← hrec]
        exact ⟨rfl, rfl, rfl, rfl, fun _ => ⟨m, rfl, facet_fields_keys _ m hff⟩⟩


/-- Claim C8: in every successful normalization the total is the engine's
reported count (zero when absent), total pages is zero when the page size is
zero, and otherwise is exactly the ceiling of total over page size, witnessed
by the standard two-sided bound. -/
theorem claim_C8_paging_arithmetic (facet : Bool) (page pp : Nat) (data : SolrData)
    (res : SearchResult) (h : normalize facet page pp data = Except.ok res) :
    res.total = data.numFound.getD 0
    ∧ (pp = 0 → res.total_pages = 0)
    ∧ (pp ≠ 0 → res.total_pages = (res.total + pp - 1) / pp
        ∧ res.total ≤ res.total_pages * pp
        ∧ res.total_pages * pp < res.total + pp) := by
  obtain ⟨ht, _, _, htp, _⟩ := normalize_ok_inv facet page pp data res h
  refine ⟨ht, ?_, ?_⟩
  · intro h0
    rw [htp, if_neg (by simp [h0])]
  · intro h0
    have hform : res.total_pages = (res.total + pp - 1) / pp := by
      rw [htp, if_pos h0, ht]
    refine ⟨hform, ?_, ?_⟩
    · rw [hform]
      have h1 := @Nat.lt_div_mul_add (res.total + pp - 1) pp (Nat.pos_of_ne_zero h0)
      generalize hgen : (res.total + pp - 1) / pp * pp = m at h1 ⊢
      omega
    · rw [hform]
      have h2 := Nat.div_mul_le_self (res.total + pp - 1) pp
      generalize hgen : (res.total + pp - 1) / pp * pp = m at h2 ⊢
      omega


/-- Witness for claim C8 at the specification's example: total 101, page size
20 gives 6 total pages, and 6 is the ceiling of 101 over 20. -/
theorem claim_C8_paging_arithmetic_witness :
    normalize false 1 20 { numFound := some 101, docs := [], facet_fields := [] } =
      Except.ok { total := 101, page := 1, per_page := 20, total_pages := 6,
                  results := [], facets := none }
    ∧ (6 : Nat) = (101 + 20 - 1) / 20 := by
  constructor
  · decide
  · have h := claim_C8_paging_arithmetic false 1 20
      { numFound := some 101, docs := [], facet_fields := [] }
      { total := 101, page := 1, per_page := 20, total_pages := 6,
        results := [], facets := none } (by decide)
    exact (h.2.2 (by decide)).1

/-- Counterexample for claim C2 as stated: with facets requested but the
engine returning no facet array at all for any requested field, the output
facet map is empty, so the requested field genres has no entry (rather than an
empty pair list). -/
theorem claim_C2_facet_absent_counterexample :
    normalize true 1 20 { numFound := some 0, docs := [], facet_fields := [] } =
      Except.ok { total := 0, page := 1, per_page := 20, total_pages := 0, results := [],
                  facets := some [] }
    ∧ ([] : List (String × List (JCell × JCell))).lookup "genres" = none :=
  ⟨by decide, rfl⟩

/-- Claim C2 (amended): pairing adjacent elements inverts flattening and
preserves order, a null or empty facet array yields the empty pair list, and
the output facet map carries exactly the keys the engine returned, in order (a
field absent from the engine response is absent from the output). -/
theorem claim_C2_facet_flattening_amended :
    (∀ l : List (JCell × JCell),
      facet_list_to_pairs (some (l.flatMap fun p => [p.1, p.2])) = Except.ok l)
    ∧ facet_list_to_pairs (none : Option (List JCell)) = Except.ok []
    ∧ facet_list_to_pairs (some ([] : List JCell)) = Except.ok []
    ∧ (∀ (page pp : Nat) (data : SolrData) (res : SearchResult),
        normalize true page pp data = Except.ok res →
        ∃ m, res.facets = some m ∧ m.map Prod.fst = data.facet_fields.map Prod.fst) := by
  refine ⟨?_, rfl, rfl, ?_⟩
  · intro l
    cases l with
    | nil => rfl
    | cons p ps =>
      show pair_adjacent ((p :: ps).flatMap fun p => [p.1, p.2]) = Except.ok (p :: ps)
      exact pair_adjacent_flatten (p :: ps)
  · intro page pp data res h
    exact (normalize_ok_inv true page pp data res h).2.2.2.2 rfl

/-- Witness for claim C2 (amended) at the specification's example facet array
and at a one-field engine response. -/
theorem claim_C2_facet_flattening_amended_witness :
    facet_list_to_pairs (some [JCell.s "Action", JCell.n 120, JCell.s "Drama", JCell.n 95]) =
      Except.ok [(JCell.s "Action", JCell.n 120), (JCell.s "Drama", JCell.n 95)]
    ∧ normalize true 1 20 { numFound := some 0, docs := [],
                            facet_fields := [("genres", some [JCell.s "Action", JCell.n 120])] } =
      Except.ok { total := 0, page := 1, per_page := 20, total_pages := 0, results := [],
                  facets := some [("genres", [(JCell.s "Action", JCell.n 120)])] }
    ∧ (∃ m, ({ total := 0, page := 1, per_page := 20, total_pages := 0, results := [],
               facets := some [("genres", [(JCell.s "Action", JCell.n 120)])] } : SearchResult).facets
              = some m
          ∧ m.map Prod.fst = ([("genres", some [JCell.s "Action", JCell.n 120])] :
              List (String × Option (List JCell))).map Prod.fst) := by
  refine ⟨?_, by decide, ?_⟩
  · exact claim_C2_facet_flattening_amended.1
      [(JCell.s "Action", JCell.n 120), (JCell.s "Drama", JCell.n 95)]
  · exact claim_C2_facet_flattening_amended.2.2.2 1 20
      { numFound := some 0, docs := [],
        facet_fields := [("genres", some [JCell.s "Action", JCell.n 120])] }
      { total := 0, page := 1, per_page := 20, total_pages := 0, results := [],
        facets := some [("genres", [(JCell.s "Action", JCell.n 120)])] } (by decide)


/-- Counterexample for claim C4 as stated: a transport failure during the
lookup operation surfaces as the uncaught client exception, not as the
ServiceUnavailable translation (the source wraps only the search call in a
try block). -/
theorem claim_C4_lookup_transport_counterexample :
    get_film_handler "tt1" (Transport.fail "conn refused") =
      Except.error (PyError.requestsError "conn refused")
    ∧ PyError.requestsError "conn refused" ≠ serviceUnavailable "conn refused" :=
  ⟨rfl, by decide⟩

/-- Claim C4 (amended): for search, a transport failure surfaces as
ServiceUnavailable; for both operations a non-success engine status surfaces
as UpstreamError carrying the engine status and body; a lookup with zero
documents surfaces as NotFound; and for the lookup a transport failure
propagates as the untranslated client exception. -/
theorem claim_C4_error_translation_amended :
    (∀ (facet : Bool) (page pp : Nat) (m : String),
      search_handler facet page pp (Transport.fail m) = Except.error (serviceUnavailable m))
    ∧ (∀ (facet : Bool) (page pp : Nat) (r : EngineResponse), r.status ≠ 200 →
        search_handler facet page pp (Transport.ok r) =
          Except.error (upstreamError r.status r.text))
    ∧ (∀ fid m : String,
        get_film_handler fid (Transport.fail m) = Except.error (PyError.requestsError m))
    ∧ (∀ (fid : String) (r : EngineResponse), r.status ≠ 200 →
        get_film_handler fid (Transport.ok r) = Except.error (upstreamError r.status r.text))
    ∧ (∀ (fid : String) (r : EngineResponse), r.status = 200 → r.json.docs = [] →
        get_film_handler fid (Transport.ok r) = Except.error (notFound fid)) := by
  refine ⟨fun facet page pp m => rfl, ?_, fun fid m => rfl, ?_, ?_⟩
  · intro facet page pp r h
    unfold upstreamError
    show (if r.status ≠ 200 then
            Except.error (PyError.httpException r.status ("Solr error: " ++ r.text))
          else normalize facet page pp r.json) =
        Except.error (PyError.httpException r.status ("Solr error: " ++ r.text))
    rw [if_pos h]
  · intro fid r h
    unfold upstreamError
    show (if r.status ≠ 200 then
            Except.error (PyError.httpException r.status ("Solr error: " ++ r.text))
          else
            match r.json.docs with
            | [] => Except.error (PyError.httpException 404 ("Film " ++ fid ++ " not found"))
            | d :: _ => film_of_doc d) =
        Except.error (PyError.httpException r.status ("Solr error: " ++ r.text))
    rw [if_pos h]
  · intro fid r h200 hdocs
    unfold notFound
    show (if r.status ≠ 200 then
            Except.error (PyError.httpException r.status ("Solr error: " ++ r.text))
          else
            match r.json.docs with
            | [] => Except.error (PyError.httpException 404 ("Film " ++ fid ++ " not found"))
            | d :: _ => film_of_doc d) =
        Except.error (PyError.httpException 404 ("Film " ++ fid ++ " not found"))
    rw [if_neg (by rw [h200]; exact fun hc => hc rfl), hdocs]

/-- Witness for claim C4 (amended): a 500 engine response to search, a
transport failure and an empty 200 lookup response. -/
theorem claim_C4_error_translation_amended_witness :
    search_handler false 1 20 (Transport.ok { status := 500, text := "oops", json := {} }) =
      Except.error (upstreamError 500 "oops")
    ∧ get_film_handler "tt9" (Transport.fail "timeout") =
        Except.error (PyError.requestsError "timeout")
    ∧ get_film_handler "tt9" (Transport.ok { status := 200, text := "", json := {} }) =
        Except.error (notFound "tt9") := by
  refine ⟨?_, ?_, ?_⟩
  · exact claim_C4_error_translation_amended.2.1 false 1 20
      { status := 500, text := "oops", json := {} } (by decide)
  · exact claim_C4_error_translation_amended.2.2.1 "tt9" "timeout"
  · exact claim_C4_error_translation_amended.2.2.2.2 "tt9"
      { status := 200, text := "", json := {} } rfl rfl

end SearchService
